import Mathlib

/-
Verification of the render worker pipeline (src/worker/app.py).

The development shallowly embeds the worker's render path:
  - helpers: decode_dataurl_image (line 72), run (line 79), call_callback
    payload shapes, r2_public_url key construction;
  - the background job _do_render (line 183): payload fetch, per-item clip
    synthesis (loop-from-video vs animate-from-image), the zoompan / fade
    motion-parameter synthesis, the concat/mux step, upload, and the
    try/except/finally callback and workspace-cleanup discipline.

External effects (HTTP fetches, subprocess invocations of the encoding
tool, object-storage upload) are represented by an explicit environment
of fallible results; clip files are represented by descriptions of the
instructions the worker constructs for the encoding tool.  Machine
floats of the source are modelled as rationals.
-/

namespace Worker

/-- Python truthiness of a string: the empty string is falsy. -/
def pyTruthyStr (s : String) : Bool :=
  match s.data with
  | [] => false
  | _ :: _ => true

/-- Coalesce an optional string by Python truthiness: a missing value or an
empty string yields none (models patterns such as item.get(k) used in a
boolean position). -/
def truthyStr (o : Option String) : Option String :=
  match o with
  | some s => if pyTruthyStr s then some s else none
  | none => none

/-- List-level prefix test, used to model Python str.startswith. -/
def startsWithL : List Char → List Char → Bool
  | _, [] => true
  | [], _ :: _ => false
  | c :: cs, p :: ps => c = p && startsWithL cs ps

/-- Models Python s.startswith(p). -/
def pyStartsWith (s p : String) : Bool :=
  startsWithL s.data p.data

/-- Python whitespace characters handled by str.strip (the common ones). -/
def isPyWS (c : Char) : Bool :=
  c = ' ' || c = '\n' || c = '\t' || c = '\r'

/-- Models Python s.strip(): drop whitespace from both ends. -/
def pyStrip (s : String) : String :=
  String.mk (((s.data.dropWhile isPyWS).reverse.dropWhile isPyWS).reverse)

/-- Models Python s.rstrip(patK) for the slash character, as used by
r2_public_url (line 101): drop every trailing slash. -/
def rstripSlashes (s : String) : String :=
  String.mk ((s.data.reverse.dropWhile (fun c => c = '/')).reverse)

/-- Models Python s[-2000:] (line 82): the trailing excerpt of at most the
last 2000 characters of s. -/
def tail2000 (s : String) : String :=
  String.mk (s.data.drop (s.data.length - 2000))

/-- Python f-string rendering of an optional value: None prints as the
four-character text. -/
def pyStrOfOpt (o : Option String) : String :=
  match o with
  | some s => s
  | none => "None"

/-- Result of a subprocess invocation: exit status plus the combined
stdout+stderr text (run is invoked with stderr redirected to stdout,
line 80). -/
structure ExecResult where
  returncode : ℤ
  output : String
deriving DecidableEq

/-- Embedding of run (line 79): a nonzero exit status raises with the last
2000 characters of the combined output; success returns the output. -/
def run (r : ExecResult) : Except String String :=
  if r.returncode ≠ 0 then Except.error (tail2000 r.output) else Except.ok r.output

/-- Base64 alphabet membership (without the padding character). -/
def isB64Char (c : Char) : Bool :=
  ('A' ≤ c && c ≤ 'Z') || ('a' ≤ c && c ≤ 'z') || ('0' ≤ c && c ≤ '9') ||
    c = '+' || c = '/'

/-- Base64 alphabet membership including the padding character. -/
def isB64OrPad (c : Char) : Bool :=
  isB64Char c || c = '='

/-- Embedding of Python base64.b64decode with validate=False as called on
line 76: characters outside the base64 alphabet are discarded before the
grouping check; the remaining data characters must fill 4-character groups,
a final group of 2 or 3 data characters being completed by '=' padding.
Returns the number of decoded bytes, or none on a padding/grouping fault. -/
def b64decodeLen (content : List Char) : Option ℕ :=
  let data := content.filter isB64Char
  let pads := (content.filter (fun c => c = '=')).length
  let n := data.length
  if pads = 0 then
    if n % 4 = 0 then some (3 * (n / 4)) else none
  else if pads = 1 ∧ n % 4 = 3 then some (3 * (n / 4) + 2)
  else if pads = 2 ∧ n % 4 = 2 then some (3 * (n / 4) + 1)
  else none

/-- Split a character list at its first semicolon; none when no semicolon
occurs. -/
def splitAtSemi : List Char → Option (List Char × List Char)
  | [] => none
  | c :: cs =>
    if c = ';' then some ([], cs)
    else
      match splitAtSemi cs with
      | some p => some (c :: p.1, p.2)
      | none => none

/-- Embedding of the regular expression of line 73 anchored by re.match:
data:(image/[^;]+);base64,(.*) with DOTALL.  The class [^;]+ cannot cross a
semicolon, so the match is the run up to the first semicolon after the
image/ marker, which must be nonempty and be followed by the base64 marker;
the final group is the remaining content (newlines included).  Returns the
captured base64 content. -/
def parseDataUrl (s : String) : Option (List Char) :=
  let l := s.data
  let pre := "data:image/".data
  if startsWithL l pre then
    match splitAtSemi (l.drop pre.length) with
    | some p =>
      if p.1 = [] then none
      else if startsWithL p.2 "base64,".data then some (p.2.drop 7)
      else none
    | none => none
  else none

/-- Embedding of decode_dataurl_image (line 72): reject payloads that do not
match the data-URL pattern with message bad dataUrl; otherwise base64-decode
the captured content to disk (modelled by the decoded byte count), with a
decode fault modelled by the invalid base64 error. -/
def decode_dataurl_image (dataUrl : String) : Except String ℕ :=
  match parseDataUrl dataUrl with
  | none => Except.error "bad dataUrl"
  | some content =>
    match b64decodeLen content with
    | none => Except.error "invalid base64"
    | some k => Except.ok k

/-- The animation record possibly attached to an asset (payload fields read
on lines 230-232). -/
structure Animation where
  status : Option String
  videoUrl : Option String
deriving DecidableEq

/-- An asset table entry (fields read on lines 205, 230, 253). -/
structure Asset where
  id : Option String
  animation : Option Animation
  dataUrl : Option String
deriving DecidableEq

/-- A storyboard entry (fields read on lines 220, 225, 226).  A JSON null
and an absent key both read back as none, matching dict.get. -/
structure StoryboardItem where
  assetId : Option String
  durationSec : Option ℚ
  animateType : Option String
  animationStr : Option String
  animate : Bool
deriving DecidableEq

/-- The payload returned by the payload endpoint (fields read on lines
199-204 and 330). -/
structure Payload where
  audioUrl : Option String
  storyboard : List StoryboardItem
  assets : List Asset
  projectId : Option String
deriving DecidableEq

/-- Embedding of the dict comprehension of line 205 followed by the lookup
of line 223: only assets with a truthy id enter the table, and a later
entry with the same id overwrites an earlier one. -/
def lookupAsset : List Asset → String → Option Asset
  | [], _ => none
  | a :: rest, aid =>
    match lookupAsset rest aid with
    | some r => some r
    | none =>
      match a.id with
      | some s => if pyTruthyStr s ∧ s = aid then some a else none
      | none => none

/-- Embedding of line 225: float(item.get(durationSec key) or 5).  Python
truthiness makes an absent key, a null and a zero all fall back to 5. -/
def itemDur (d : Option ℚ) : ℚ :=
  match d with
  | none => 5
  | some x => if x = 0 then 5 else x

/-- Embedding of line 226: the animation variant string, first truthy of
the animateType field, the animation field, and a default derived from the
animate flag. -/
def animOf (item : StoryboardItem) : String :=
  match truthyStr item.animateType with
  | some s => s
  | none =>
    match truthyStr item.animationStr with
    | some s => s
    | none => if item.animate then "zoom-in" else "none"

/-- Embedding of lines 229-232: the precomputed video reference is
considered only when the asset carries an animation record whose status is
the completed marker. -/
def completedVideoUrl (a : Asset) : Option String :=
  match a.animation with
  | some ao => if ao.status = some "completed" then ao.videoUrl else none
  | none => none

/-- Embedding of the guard of line 238: the video branch is taken only for
a truthy string reference that starts with http. -/
def usableVideoUrl (a : Asset) : Option String :=
  match completedVideoUrl a with
  | some u => if pyTruthyStr u && pyStartsWith u "http" then some u else none
  | none => none

/-- The configured frame rate (line 212). -/
def fps : ℚ := 30

/-- The zoompan zoom ceiling of lines 268 and 272. -/
def maxZoom : ℚ := 5 / 4

/-- Embedding of Python round on the exact value q = num/den (den positive,
fraction reduced): round-half-to-even, phrased over the numerator and
denominator so the fractional part 2*rem versus den decides which way to
round. -/
def pyRound (q : ℚ) : ℤ :=
  let n := q.num
  let d : ℤ := (q.den : ℤ)
  let f := Int.fdiv n d
  let rem := n - f * d
  if 2 * rem < d then f
  else if d < 2 * rem then f + 1
  else if f % 2 = 0 then f else f + 1

/-- Embedding of line 259: frames = max(1, round(dur * fps)). -/
def framesOf (dur : ℚ) : ℤ :=
  max 1 (pyRound (dur * fps))

/-- Embedding of line 260: den = max(1, frames - 1), the motion
denominator. -/
def denOf (dur : ℚ) : ℤ :=
  max 1 (framesOf dur - 1)

/-- The per-frame zoom factor of the zoom-in variant (line 269):
min(1 + (maxZoom - 1) * on / den, maxZoom) at output frame index on. -/
def zoomInScale (den : ℤ) (i : ℕ) : ℚ :=
  min (1 + (maxZoom - 1) * (i : ℚ) / (den : ℚ)) maxZoom

/-- The motion directive appended to the base filter for one storyboard
item (the if/elif chain of lines 267-287).  Zoom and pan variants carry the
motion denominator; fades carry the fade window start and length. -/
inductive MotionFilter where
  | zoomIn (den : ℤ)
  | zoomOut (den : ℤ)
  | panLeft (den : ℤ)
  | panRight (den : ℤ)
  | panUp (den : ℤ)
  | panDown (den : ℤ)
  | fadeIn (st fdur : ℚ)
  | fadeOut (st fdur : ℚ)
deriving DecidableEq

/-- Embedding of the variant dispatch of lines 267-287: an enumerated
variant selects its motion directive; any other string (the none variant
included) appends nothing. -/
def motionFilter (anim : String) (dur : ℚ) : Option MotionFilter :=
  let den := denOf dur
  if anim = "zoom-in" then some (MotionFilter.zoomIn den)
  else if anim = "zoom-out" then some (MotionFilter.zoomOut den)
  else if anim = "pan-left" then some (MotionFilter.panLeft den)
  else if anim = "pan-right" then some (MotionFilter.panRight den)
  else if anim = "pan-up" then some (MotionFilter.panUp den)
  else if anim = "pan-down" then some (MotionFilter.panDown den)
  else if anim = "fade-in" then some (MotionFilter.fadeIn 0 (1 / 2))
  else if anim = "fade-out" then some (MotionFilter.fadeOut (max 0 (dur - 1 / 2)) (1 / 2))
  else none

/-- Description of the encoding instructions built for one clip: either the
loop/truncate command over a downloaded source video (lines 242-250) or the
still-image command with its motion directive (lines 289-297).  Both carry
the requested clip duration passed to the -t flag. -/
inductive ClipSpec where
  | fromVideo (url : String) (dur : ℚ)
  | fromImage (anim : String) (motion : Option MotionFilter) (dur : ℚ)
deriving DecidableEq

instance (ε α : Type) [DecidableEq ε] [DecidableEq α] : DecidableEq (Except ε α) :=
  fun a b =>
    match a, b with
    | Except.ok x, Except.ok y => decidable_of_iff (x = y) (by simp)
    | Except.error x, Except.error y => decidable_of_iff (x = y) (by simp)
    | Except.ok _, Except.error _ => isFalse (fun hc => Except.noConfusion hc)
    | Except.error _, Except.ok _ => isFalse (fun hc => Except.noConfusion hc)

/-- The outcomes of the job's external effects: the payload fetch of lines
190-197 (HTTP or JSON fault collapsed into one error), the audio download
of line 209, the per-item source-video download of line 240, the per-item
encoding invocation of lines 251/298, the concat/mux invocation of line
324, the probe of line 327, the upload of line 332, and the storage
configuration read by r2_client and r2_public_url. -/
structure RenderEnv where
  fetchPayload : Except String Payload
  downloadAudio : Except String Unit
  downloadVideo : ℕ → Except String Unit
  runClip : ℕ → ExecResult
  runConcat : ExecResult
  runProbe : ExecResult
  upload : Except String Unit
  r2Configured : Bool
  publicBaseUrl : Option String

/-- Embedding of the animate-from-image arm (lines 252-298): a missing or
falsy inline payload skips the item; a decode fault or a nonzero encoder
exit aborts the job; otherwise the clip instruction record is produced. -/
def synthFromImage (env : RenderEnv) (a : Asset) (anim : String) (dur : ℚ) (i : ℕ) :
    Except String (Option ClipSpec) :=
  match truthyStr a.dataUrl with
  | none => Except.ok none
  | some du =>
    match decode_dataurl_image du with
    | Except.error e => Except.error e
    | Except.ok _ =>
      match run (env.runClip i) with
      | Except.error e => Except.error e
      | Except.ok _ => Except.ok (some (ClipSpec.fromImage anim (motionFilter anim dur) dur))

/-- Embedding of one iteration of the storyboard loop (lines 219-300): a
missing or unknown asset id skips the item; a usable completed video
reference selects the loop-from-video arm; otherwise the animate-from-image
arm runs. -/
def synthClip (env : RenderEnv) (assets : List Asset) (i : ℕ) (item : StoryboardItem) :
    Except String (Option ClipSpec) :=
  match truthyStr item.assetId with
  | none => Except.ok none
  | some aid =>
    match lookupAsset assets aid with
    | none => Except.ok none
    | some a =>
      let dur := itemDur item.durationSec
      let anim := animOf item
      match usableVideoUrl a with
      | some u =>
        match env.downloadVideo i with
        | Except.error e => Except.error e
        | Except.ok _ =>
          match run (env.runClip i) with
          | Except.error e => Except.error e
          | Except.ok _ => Except.ok (some (ClipSpec.fromVideo u dur))
      | none => synthFromImage env a anim dur i

/-- Embedding of the whole storyboard loop with its enumerate index: clips
are collected in storyboard order, skipped items contribute nothing, and
the first fault aborts. -/
def synthClips (env : RenderEnv) (assets : List Asset) :
    ℕ → List StoryboardItem → Except String (List ClipSpec)
  | _, [] => Except.ok []
  | i, item :: rest =>
    match synthClip env assets i item with
    | Except.error e => Except.error e
    | Except.ok none => synthClips env assets (i + 1) rest
    | Except.ok (some c) =>
      match synthClips env assets (i + 1) rest with
      | Except.error e => Except.error e
      | Except.ok cs => Except.ok (c :: cs)

/-- Embedding of the storage key of line 330 (a missing projectId renders
as the None text inside the f-string). -/
def renderKey (projectId : Option String) (renderId : String) : String :=
  "renders/" ++ pyStrOfOpt projectId ++ "/" ++ renderId ++ ".mp4"

/-- Embedding of the try-block body of _do_render (lines 188-341): payload
fetch, audioUrl presence check, audio download, clip synthesis, the fatal
empty-clip check, the concat/mux and probe invocations, the storage
configuration checks of r2_client and r2_public_url, and the upload.  The
value is the public output reference and the probe text. -/
def tryRender (rid : String) (env : RenderEnv) : Except String (String × String) :=
  match env.fetchPayload with
  | Except.error e => Except.error e
  | Except.ok payload =>
    match truthyStr payload.audioUrl with
    | none => Except.error "payload.audioUrl missing"
    | some _ =>
      match env.downloadAudio with
      | Except.error e => Except.error e
      | Except.ok _ =>
        match synthClips env payload.assets 0 payload.storyboard with
        | Except.error e => Except.error e
        | Except.ok clips =>
          if clips = [] then Except.error "no clips generated"
          else
            match run env.runConcat with
            | Except.error e => Except.error e
            | Except.ok _ =>
              match run env.runProbe with
              | Except.error e => Except.error e
              | Except.ok probe =>
                if env.r2Configured then
                  match env.upload with
                  | Except.error e => Except.error e
                  | Except.ok _ =>
                    match env.publicBaseUrl with
                    | none => Except.error "R2_PUBLIC_BASE_URL missing"
                    | some b =>
                      Except.ok
                        (rstripSlashes b ++ "/" ++ renderKey payload.projectId rid, probe)
                else Except.error "R2 env not configured on worker"

/-- The JSON body handed to call_callback (lines 335-341 and 344-350). -/
structure CallbackPayload where
  userId : String
  renderId : String
  status : String
  outputUrl : Option String
  error : Option String
  logTail : String
deriving DecidableEq

/-- The job's scratch directory, reduced to whether it exists on disk. -/
structure Workspace where
  present : Bool
deriving DecidableEq

/-- Embedding of shutil.rmtree on the workspace (lines 185 and 352): the
directory no longer exists afterwards. -/
def shutil_rmtree (_w : Workspace) : Workspace :=
  Workspace.mk false

/-- Embedding of _do_render (line 183): the workspace is recreated, the
try-block body runs, the except arm turns any fault into a failure report,
and the finally arm removes the workspace on both paths.  The value is the
list of payloads handed to call_callback together with the final workspace
state. -/
def _do_render (uid rid : String) (env : RenderEnv) : List CallbackPayload × Workspace :=
  let ws := Workspace.mk true
  let reports : List CallbackPayload :=
    match tryRender rid env with
    | Except.ok r =>
      [{ userId := uid, renderId := rid, status := "complete",
         outputUrl := some r.1, error := none,
         logTail := "VM worker render complete\n" ++ pyStrip r.2 }]
    | Except.error e =>
      [{ userId := uid, renderId := rid, status := "failed",
         outputUrl := none, error := some e,
         logTail := "VM worker render failed: " ++ e }]
  (reports, shutil_rmtree ws)

/-- A storyboard item requesting a three-second zoom-in over asset a1. -/
def itemZoom : StoryboardItem :=
  { assetId := some "a1", durationSec := some 3, animateType := some "zoom-in",
    animationStr := none, animate := false }

/-- An asset holding only an inline image payload. -/
def assetImg : Asset :=
  { id := some "a1", animation := none, dataUrl := some "data:image/png;base64,AAAA" }

/-- A payload with one image-backed zoom-in item. -/
def payloadOne : Payload :=
  { audioUrl := some "http://audio/a.mp3", storyboard := [itemZoom],
    assets := [assetImg], projectId := some "p1" }

/-- An environment in which every external effect succeeds. -/
def envOkAll : RenderEnv :=
  { fetchPayload := Except.ok payloadOne,
    downloadAudio := Except.ok (),
    downloadVideo := fun _ => Except.ok (),
    runClip := fun _ => ExecResult.mk 0 "clip ok",
    runConcat := ExecResult.mk 0 "concat ok",
    runProbe := ExecResult.mk 0 "probe",
    upload := Except.ok (),
    r2Configured := true,
    publicBaseUrl := some "https://cdn/" }

/-- Evaluation of the frame count at the three-second fixture duration. -/
theorem framesOf_three : framesOf 3 = 90 := by
  have h : (3 : ℚ) * fps = 90 := by norm_num [fps]
  unfold framesOf
  rw [h]
  decide

/-- Evaluation of the motion denominator at the three-second fixture
duration. -/
theorem denOf_three : denOf 3 = 89 := by
  unfold denOf
  rw [framesOf_three]
  decide

/-- An item whose assetId is absent. -/
def itemNoAsset : StoryboardItem :=
  { assetId := none, durationSec := none, animateType := none,
    animationStr := none, animate := false }

/-- A payload with an audio reference but an empty storyboard. -/
def payloadEmpty : Payload :=
  { audioUrl := some "http://audio/a.mp3", storyboard := [], assets := [],
    projectId := none }

/-- The all-success environment over the empty-storyboard payload. -/
def envEmpty : RenderEnv :=
  { envOkAll with fetchPayload := Except.ok payloadEmpty }

/-- C1: for every render job execution, the callback-notification function
is invoked exactly once, whatever the outcome of the pipeline body: one
report is handed to call_callback, with status complete carrying the output
reference when the body succeeds, and status failed carrying the error text
when any pipeline step faults. -/
theorem c1_exactly_one_callback (uid rid : String) (env : RenderEnv) :
    ((_do_render uid rid env).1).length = 1 ∧
    (∀ url probe, tryRender rid env = Except.ok (url, probe) →
      (_do_render uid rid env).1 =
        [{ userId := uid, renderId := rid, status := "complete",
           outputUrl := some url, error := none,
           logTail := "VM worker render complete\n" ++ pyStrip probe }]) ∧
    (∀ e, tryRender rid env = Except.error e →
      (_do_render uid rid env).1 =
        [{ userId := uid, renderId := rid, status := "failed",
           outputUrl := none, error := some e,
           logTail := "VM worker render failed: " ++ e }]) := by
  refine ⟨?_, ?_, ?_⟩
  · cases h : tryRender rid env <;> simp [_do_render, h]
  · intro url probe h
    simp [_do_render, h]
  · intro e h
    simp [_do_render, h]

/-- Closed instantiation of the C1 theorem on the all-success fixture
environment. -/
theorem c1_witness :
    (_do_render "u1" "r1" envOkAll).1 =
      [{ userId := "u1", renderId := "r1", status := "complete",
         outputUrl := some "https://cdn/renders/p1/r1.mp4", error := none,
         logTail := "VM worker render complete\n" ++ pyStrip "probe" }] :=
  (c1_exactly_one_callback "u1" "r1" envOkAll).2.1 "https://cdn/renders/p1/r1.mp4" "probe"
    (by decide)

/-- C2: the finally arm of _do_render removes the job workspace on every
exit path, so after the job reaches either terminal state the workspace
directory no longer exists. -/
theorem c2_workspace_removed (uid rid : String) (env : RenderEnv) :
    ((_do_render uid rid env).2).present = false := rfl

/-- C3: an item with a missing or unknown asset id, or whose asset resolves
to neither a usable completed video reference nor an inline image payload,
is skipped without failing the job (the loop continues on the remaining
items), and an empty resulting clip list makes the job fail with the
no-clips error. -/
theorem c3_skip_and_empty_fatal (env : RenderEnv) (assets : List Asset) (i : ℕ)
    (item : StoryboardItem) (rest : List StoryboardItem) (rid : String)
    (p : Payload) (u : String) :
    (truthyStr item.assetId = none → synthClip env assets i item = Except.ok none) ∧
    (∀ aid, truthyStr item.assetId = some aid → lookupAsset assets aid = none →
      synthClip env assets i item = Except.ok none) ∧
    (∀ aid a, truthyStr item.assetId = some aid → lookupAsset assets aid = some a →
      usableVideoUrl a = none → truthyStr a.dataUrl = none →
      synthClip env assets i item = Except.ok none) ∧
    (synthClip env assets i item = Except.ok none →
      synthClips env assets i (item :: rest) = synthClips env assets (i + 1) rest) ∧
    (env.fetchPayload = Except.ok p → truthyStr p.audioUrl = some u →
      env.downloadAudio = Except.ok () →
      synthClips env p.assets 0 p.storyboard = Except.ok [] →
      tryRender rid env = Except.error "no clips generated") := by
  refine ⟨?_, ?_, ?_, ?_, ?_⟩
  · intro h
    simp only [synthClip, h]
  · intro aid h1 h2
    simp only [synthClip, h1, h2]
  · intro aid a h1 h2 h3 h4
    simp only [synthClip, synthFromImage, h1, h2, h3, h4]
  · intro h
    simp only [synthClips, h]
  · intro h1 h2 h3 h4
    simp only [tryRender, h1, h2, h3, h4, if_pos rfl, if_true]

/-- Closed instantiation of the C3 theorem: a missing asset id is skipped,
and the empty-storyboard fixture fails with the no-clips error. -/
theorem c3_witness :
    synthClip envOkAll [] 0 itemNoAsset = Except.ok none ∧
    tryRender "r9" envEmpty = Except.error "no clips generated" :=
  ⟨(c3_skip_and_empty_fatal envOkAll [] 0 itemNoAsset [] "r9" payloadEmpty "x").1 rfl,
   (c3_skip_and_empty_fatal envEmpty [] 0 itemNoAsset [] "r9" payloadEmpty
      "http://audio/a.mp3").2.2.2.2 rfl rfl rfl rfl⟩

/-- The zoom factor at frame index zero is exactly one. -/
theorem zoomInScale_zero (den : ℤ) : zoomInScale den 0 = 1 := by
  unfold zoomInScale
  rw [Nat.cast_zero, mul_zero, zero_div, add_zero]
  exact min_eq_left (by norm_num [maxZoom])

/-- The zoom factor is non-decreasing in the frame index when the
denominator is at least one. -/
theorem zoomInScale_mono (den : ℤ) (hden : 1 ≤ den) {i j : ℕ} (hij : i ≤ j) :
    zoomInScale den i ≤ zoomInScale den j := by
  unfold zoomInScale
  apply min_le_min _ le_rfl
  have hd0 : (0 : ℤ) < den := lt_of_lt_of_le zero_lt_one hden
  have hd : (0 : ℚ) < (den : ℚ) := by exact_mod_cast hd0
  have hij2 : (i : ℚ) ≤ (j : ℚ) := by exact_mod_cast hij
  have hc : (0 : ℚ) ≤ maxZoom - 1 := by norm_num [maxZoom]
  have h3 : (maxZoom - 1) * (i : ℚ) ≤ (maxZoom - 1) * (j : ℚ) :=
    mul_le_mul_of_nonneg_left hij2 hc
  have h4 : (maxZoom - 1) * (i : ℚ) / (den : ℚ) ≤ (maxZoom - 1) * (j : ℚ) / (den : ℚ) := by
    rw [div_eq_mul_inv, div_eq_mul_inv]
    exact mul_le_mul_of_nonneg_right h3 (inv_nonneg.mpr hd.le)
  exact add_le_add_left h4 1

/-- At frame index equal to the denominator the zoom factor reaches the
zoom ceiling exactly. -/
theorem zoomInScale_at_den (den : ℤ) (hden : 1 ≤ den) :
    zoomInScale den den.toNat = maxZoom := by
  unfold zoomInScale
  have hcast : ((den.toNat : ℕ) : ℚ) = (den : ℚ) := by
    exact_mod_cast Int.toNat_of_nonneg (le_trans zero_le_one hden)
  rw [hcast]
  have hd : (0 : ℚ) < (den : ℚ) := by
    exact_mod_cast lt_of_lt_of_le zero_lt_one hden
  rw [mul_div_assoc, div_self (ne_of_gt hd), mul_one]
  have h5 : 1 + (maxZoom - 1) = maxZoom := by ring
  rw [h5, min_self]

/-- C4: for an image-animated item, the frame count is round(dur * fps)
clamped to at least 1 and the motion denominator is (frames - 1) clamped to
at least 1; the zoom-in variant carries exactly this denominator, its
per-frame scale is non-decreasing, equals 1 at frame 0, reaches the 1.25
ceiling exactly at the last frame when more than one frame exists, and a
single-frame clip has denominator 1 (no division by zero) with scale 1. -/
theorem c4_zoom_in_motion (dur : ℚ) (i j : ℕ) :
    motionFilter "zoom-in" dur = some (MotionFilter.zoomIn (denOf dur)) ∧
    framesOf dur = max 1 (pyRound (dur * 30)) ∧
    denOf dur = max 1 (framesOf dur - 1) ∧
    zoomInScale (denOf dur) 0 = 1 ∧
    (i ≤ j → zoomInScale (denOf dur) i ≤ zoomInScale (denOf dur) j) ∧
    (1 < framesOf dur →
      zoomInScale (denOf dur) ((framesOf dur).toNat - 1) = maxZoom) ∧
    (framesOf dur = 1 → denOf dur = 1 ∧ zoomInScale (denOf dur) 0 = 1) := by
  refine ⟨rfl, rfl, rfl, zoomInScale_zero _, ?_, ?_, ?_⟩
  · intro hij
    exact zoomInScale_mono _ (le_max_left _ _) hij
  · intro hf
    have h2 : (1 : ℤ) ≤ framesOf dur - 1 := by omega
    have hde : denOf dur = framesOf dur - 1 := by
      unfold denOf
      exact max_eq_right h2
    have hidx : (framesOf dur).toNat - 1 = (framesOf dur - 1).toNat := by omega
    rw [hde, hidx]
    exact zoomInScale_at_den _ h2
  · intro h1
    constructor
    · unfold denOf
      rw [h1]
      decide
    · exact zoomInScale_zero _

/-- Closed instantiation of the C4 theorem at a three-second clip: 90
frames, scale 1 at frame 0, non-decreasing between frames 0 and 1, and the
1.25 ceiling at frame 89. -/
theorem c4_witness :
    zoomInScale (denOf 3) 0 = 1 ∧
    zoomInScale (denOf 3) 0 ≤ zoomInScale (denOf 3) 1 ∧
    zoomInScale (denOf 3) ((framesOf 3).toNat - 1) = maxZoom :=
  ⟨(c4_zoom_in_motion 3 0 1).2.2.2.1,
   (c4_zoom_in_motion 3 0 1).2.2.2.2.1 (by decide),
   (c4_zoom_in_motion 3 0 1).2.2.2.2.2.1 (by rw [framesOf_three]; decide)⟩

/-- An animation record marked completed but carrying no video reference. -/
def animCompletedNoUrl : Animation :=
  { status := some "completed", videoUrl := none }

/-- An asset marked completed without a video reference, with an inline
image payload available. -/
def assetCompletedNoUrl : Asset :=
  { id := some "a1", animation := some animCompletedNoUrl,
    dataUrl := some "data:image/png;base64,AAAA" }

/-- A storyboard item over asset a1 with no animation fields set. -/
def itemPlain : StoryboardItem :=
  { assetId := some "a1", durationSec := some 2, animateType := none,
    animationStr := none, animate := false }

/-- An animation record marked completed with an http video reference. -/
def animCompleted : Animation :=
  { status := some "completed", videoUrl := some "http://v/clip.mp4" }

/-- An asset carrying both a completed video reference and an inline image
payload. -/
def assetBoth : Asset :=
  { id := some "a2", animation := some animCompleted,
    dataUrl := some "data:image/png;base64,AAAA" }

/-- A storyboard item over asset a2. -/
def itemBoth : StoryboardItem :=
  { assetId := some "a2", durationSec := some 4, animateType := none,
    animationStr := none, animate := false }

/-- C5 counterexample: an asset whose precomputed animation is marked
completed but whose video reference is absent is synthesized through the
animate-from-image strategy, not loop-from-video, although the inline image
payload is also present — the guard of line 238 additionally requires a
truthy http video reference. -/
theorem c5_counterexample :
    assetCompletedNoUrl.animation.map Animation.status = some (some "completed") ∧
    synthClip envOkAll [assetCompletedNoUrl] 0 itemPlain =
      Except.ok (some (ClipSpec.fromImage "none" none 2)) := by
  constructor
  · rfl
  · decide

/-- C5 (amended): for an item whose asset carries a completed precomputed
animation whose video reference is a nonempty string starting with http,
the loop-from-video strategy is chosen with that reference as the clip
source, even when an inline image payload is also present (no hypothesis
constrains the dataUrl field). -/
theorem c5_video_preferred (env : RenderEnv) (assets : List Asset) (i : ℕ)
    (item : StoryboardItem) (aid : String) (a : Asset) (u : String) :
    completedVideoUrl a = some u → pyTruthyStr u = true →
    pyStartsWith u "http" = true →
    truthyStr item.assetId = some aid → lookupAsset assets aid = some a →
    env.downloadVideo i = Except.ok () → (env.runClip i).returncode = 0 →
    synthClip env assets i item =
      Except.ok (some (ClipSpec.fromVideo u (itemDur item.durationSec))) := by
  intro h1 h2 h3 h4 h5 h6 h7
  have hu : usableVideoUrl a = some u := by
    simp only [usableVideoUrl, h1, h2, h3, Bool.and_self, if_true]
  have hrun : run (env.runClip i) = Except.ok (env.runClip i).output := by
    unfold run
    rw [if_neg (by rw [h7]; exact fun hc => hc rfl)]
  simp only [synthClip, h4, h5, hu, h6, hrun]

/-- Closed instantiation of the amended C5 theorem: the asset carrying both
shapes yields a loop-from-video clip over its completed reference. -/
theorem c5_witness :
    synthClip envOkAll [assetBoth] 0 itemBoth =
      Except.ok (some (ClipSpec.fromVideo "http://v/clip.mp4" 4)) :=
  c5_video_preferred envOkAll [assetBoth] 0 itemBoth "a2" assetBoth "http://v/clip.mp4"
    rfl rfl rfl rfl rfl rfl rfl

/-- C6: the fade-out variant of duration d builds a fade window starting at
max(0, d - 0.5) lasting 0.5 seconds; for d at least 0.5 the window is
exactly the last half second of the clip, and for shorter clips it starts
at 0 and covers the whole clip. -/
theorem c6_fade_out_window (d : ℚ) :
    motionFilter "fade-out" d =
      some (MotionFilter.fadeOut (max 0 (d - 1 / 2)) (1 / 2)) ∧
    (1 / 2 ≤ d →
      max (0 : ℚ) (d - 1 / 2) = d - 1 / 2 ∧ max (0 : ℚ) (d - 1 / 2) + 1 / 2 = d) ∧
    (d < 1 / 2 →
      max (0 : ℚ) (d - 1 / 2) = 0 ∧ d ≤ max (0 : ℚ) (d - 1 / 2) + 1 / 2) := by
  refine ⟨rfl, ?_, ?_⟩
  · intro h
    have h2 : max (0 : ℚ) (d - 1 / 2) = d - 1 / 2 := max_eq_right (by linarith)
    exact ⟨h2, by rw [h2]; ring⟩
  · intro h
    have h2 : max (0 : ℚ) (d - 1 / 2) = 0 := max_eq_left (by linarith)
    exact ⟨h2, by rw [h2]; linarith⟩

/-- Closed instantiation of the C6 theorem at durations 3 and 1/4. -/
theorem c6_witness :
    motionFilter "fade-out" 3 =
      some (MotionFilter.fadeOut (max 0 (3 - 1 / 2)) (1 / 2)) ∧
    max (0 : ℚ) (3 - 1 / 2) + 1 / 2 = 3 ∧
    max (0 : ℚ) (1 / 4 - 1 / 2) = 0 :=
  ⟨(c6_fade_out_window 3).1,
   ((c6_fade_out_window 3).2.1 (by norm_num)).2,
   ((c6_fade_out_window (1 / 4)).2.2 (by norm_num)).1⟩

/-- The all-success environment except that the concat/mux invocation
exits with status 1 and diagnostic output boom. -/
def envConcatFail : RenderEnv :=
  { envOkAll with runConcat := ExecResult.mk 1 "boom" }

/-- The clip list produced over the one-item fixture payload. -/
def clipsOne : List ClipSpec :=
  [ClipSpec.fromImage "zoom-in" (motionFilter "zoom-in" 3) 3]

/-- C7: a nonzero exit of the external encoding tool raises an error whose
message is the trailing excerpt of at most the last 2000 characters of the
combined diagnostic output (a suffix of it), and that message is surfaced
verbatim as the error text in the job's failure report. -/
theorem c7_tool_fault_tail (r : ExecResult) (uid rid : String) (env : RenderEnv)
    (p : Payload) (u : String) (clips : List ClipSpec) :
    (r.returncode ≠ 0 →
      run r = Except.error (tail2000 r.output) ∧
      (tail2000 r.output).data.length ≤ 2000 ∧
      (tail2000 r.output).data <:+ r.output.data) ∧
    (env.fetchPayload = Except.ok p → truthyStr p.audioUrl = some u →
      env.downloadAudio = Except.ok () →
      synthClips env p.assets 0 p.storyboard = Except.ok clips → clips ≠ [] →
      env.runConcat.returncode ≠ 0 →
      (_do_render uid rid env).1 =
        [{ userId := uid, renderId := rid, status := "failed",
           outputUrl := none, error := some (tail2000 env.runConcat.output),
           logTail := "VM worker render failed: " ++ tail2000 env.runConcat.output }]) := by
  constructor
  · intro h
    refine ⟨?_, ?_, ?_⟩
    · unfold run
      rw [if_pos h]
    · simp only [tail2000]
      rw [List.length_drop]
      omega
    · simp only [tail2000]
      exact List.drop_suffix _ _
  · intro h1 h2 h3 h4 h5 h6
    have htr : tryRender rid env = Except.error (tail2000 env.runConcat.output) := by
      have hrun : run env.runConcat = Except.error (tail2000 env.runConcat.output) := by
        unfold run
        rw [if_pos h6]
      simp only [tryRender, h1, h2, h3, h4, if_neg h5, hrun]
    simp [_do_render, htr]

/-- Closed instantiation of the C7 theorem: a failing concat invocation
with output boom produces exactly the failure report carrying the trailing
excerpt of that output. -/
theorem c7_witness :
    (_do_render "u1" "r1" envConcatFail).1 =
      [{ userId := "u1", renderId := "r1", status := "failed",
         outputUrl := none, error := some (tail2000 "boom"),
         logTail := "VM worker render failed: " ++ tail2000 "boom" }] :=
  (c7_tool_fault_tail (ExecResult.mk 1 "boom") "u1" "r1" envConcatFail payloadOne
      "http://audio/a.mp3" clipsOne).2 rfl rfl rfl rfl
    (by simp [clipsOne]) (by decide)

/-- Modelled from the spec words base64-encoded content: every character of
the content belongs to the base64 alphabet or is padding, and the content
fills 4-character groups.  This is the spec-side notion the decode step is
claimed to require; the source-side decoder is b64decodeLen. -/
def isBase64Content (s : String) : Bool :=
  s.data.all isB64OrPad && decide (s.data.length % 4 = 0)

/-- C8 counterexample: a payload whose content consists only of characters
outside the base64 alphabet is not base64-encoded content, yet the decode
step accepts it (the lenient decoder discards the foreign characters and
decodes the empty remainder), writing an empty file instead of failing. -/
theorem c8_counterexample :
    decode_dataurl_image "data:image/png;base64,????" = Except.ok 0 ∧
    isBase64Content "????" = false := by
  constructor
  · decide
  · decide

/-- C8 (amended): decoding succeeds only for payloads matching the
data-URL form with an image/ media type, whose captured content the
lenient decoder accepts; a payload without the image/ prefix is rejected
with the bad dataUrl error; content whose base64-alphabet characters
cannot fill 4-character groups (one leftover character, no padding) makes
the decode step fail — but content is filtered before grouping, so
non-alphabet characters alone never cause a failure. -/
theorem c8_decode_validation (s : String) (k : ℕ) (c : List Char) :
    (decode_dataurl_image s = Except.ok k →
      ∃ content, parseDataUrl s = some content ∧ b64decodeLen content = some k) ∧
    (decode_dataurl_image s = Except.ok k →
      startsWithL s.data "data:image/".data = true) ∧
    (startsWithL s.data "data:image/".data = false →
      decode_dataurl_image s = Except.error "bad dataUrl") ∧
    (parseDataUrl s = some c →
      (c.filter isB64Char).length % 4 = 1 →
      (∀ ch ∈ c, ch ≠ '=') →
      decode_dataurl_image s = Except.error "invalid base64") := by
  have hshape : ∀ k2, decode_dataurl_image s = Except.ok k2 →
      ∃ content, parseDataUrl s = some content ∧ b64decodeLen content = some k2 := by
    intro k2 h
    unfold decode_dataurl_image at h
    cases hparse : parseDataUrl s with
    | none =>
      simp only [hparse] at h
      exact absurd h (by simp)
    | some c2 =>
      simp only [hparse] at h
      cases hdec : b64decodeLen c2 with
      | none =>
        simp only [hdec] at h
        exact absurd h (by simp)
      | some k3 =>
        simp only [hdec] at h
        have hk : k3 = k2 := by
          injection h
        exact ⟨c2, rfl, by rw [hdec, hk]⟩
  refine ⟨hshape k, ?_, ?_, ?_⟩
  · intro h
    obtain ⟨c2, hparse, _⟩ := hshape k h
    by_cases hsw : startsWithL s.data "data:image/".data
    · exact hsw
    · exfalso
      have hp : parseDataUrl s = none := by
        unfold parseDataUrl
        rw [if_neg hsw]
      rw [hp] at hparse
      exact Option.noConfusion hparse
  · intro hsw
    have hp : parseDataUrl s = none := by
      unfold parseDataUrl
      rw [if_neg (by rw [hsw]; exact fun hc => Bool.noConfusion hc)]
    simp [decode_dataurl_image, hp]
  · intro hparse h2 hne
    have hp : c.filter (fun ch => ch = '=') = [] := by
      rw [List.filter_eq_nil_iff]
      intro a ha
      simp [hne a ha]
    have hdec : b64decodeLen c = none := by
      simp only [b64decodeLen, hp, List.length_nil]
      rw [if_pos trivial, if_neg (by omega)]
    simp only [decode_dataurl_image, hparse, hdec]

/-- Closed instantiation of the C8 theorem: a non-image media type is
rejected, and image content with a single leftover base64 character fails
the decode step. -/
theorem c8_witness :
    decode_dataurl_image "data:text/plain;base64,QQ==" = Except.error "bad dataUrl" ∧
    decode_dataurl_image "data:image/png;base64,A" = Except.error "invalid base64" :=
  ⟨(c8_decode_validation "data:text/plain;base64,QQ==" 0 []).2.2.1 (by decide),
   (c8_decode_validation "data:image/png;base64,A" 0 "A".data).2.2.2 (by decide)
     (by decide) (by decide)⟩

/-- C9: a storyboard item whose duration field is absent, null, or zero is
given the default duration 5 rather than being rejected — the or-fallback
of line 225 treats the numeric zero as falsy — and the clip for such an
item is synthesized with duration 5. -/
theorem c9_duration_default (x : ℚ) (env : RenderEnv) (assets : List Asset) (i : ℕ)
    (item : StoryboardItem) (aid : String) (a : Asset) (du : String) (k : ℕ) :
    itemDur none = 5 ∧
    itemDur (some 0) = 5 ∧
    (x ≠ 0 → itemDur (some x) = x) ∧
    (truthyStr item.assetId = some aid → lookupAsset assets aid = some a →
      usableVideoUrl a = none → truthyStr a.dataUrl = some du →
      decode_dataurl_image du = Except.ok k → (env.runClip i).returncode = 0 →
      (item.durationSec = none ∨ item.durationSec = some 0) →
      synthClip env assets i item =
        Except.ok (some (ClipSpec.fromImage (animOf item)
          (motionFilter (animOf item) 5) 5))) := by
  refine ⟨rfl, rfl, ?_, ?_⟩
  · intro hx
    simp [itemDur, hx]
  · intro h1 h2 h3 h4 h5 h6 hd
    have hdur : itemDur item.durationSec = 5 := by
      rcases hd with h | h <;> simp [itemDur, h]
    have hrun : run (env.runClip i) = Except.ok (env.runClip i).output := by
      unfold run
      rw [if_neg (by rw [h6]; exact fun hc => hc rfl)]
    simp only [synthClip, h1, h2, h3, synthFromImage, h4, h5, hrun, hdur]

/-- Closed instantiation of the C9 theorem: an item with no duration field
yields a five-second clip. -/
theorem c9_witness :
    synthClip envOkAll [assetImg] 0
      { assetId := some "a1", durationSec := none, animateType := some "fade-in",
        animationStr := none, animate := false } =
      Except.ok (some (ClipSpec.fromImage "fade-in" (motionFilter "fade-in" 5) 5)) :=
  (c9_duration_default 1 envOkAll [assetImg] 0
    { assetId := some "a1", durationSec := none, animateType := some "fade-in",
      animationStr := none, animate := false } "a1" assetImg
    "data:image/png;base64,AAAA" 3).2.2.2 rfl rfl rfl rfl rfl rfl (Or.inl rfl)

/-- C10: an animation-variant string outside the enumerated set is treated
exactly like the none variant — the if/elif chain of lines 267-287 appends
no motion directive — and the clip is synthesized as a static frame with no
motion filter and no error. -/
theorem c10_unknown_variant (anim : String) (dur : ℚ) (env : RenderEnv) (a : Asset)
    (i : ℕ) (du : String) (k : ℕ)
    (hne : anim ∉ (["zoom-in", "zoom-out", "pan-left", "pan-right", "pan-up",
      "pan-down", "fade-in", "fade-out", "none"] : List String)) :
    motionFilter anim dur = none ∧
    motionFilter anim dur = motionFilter "none" dur ∧
    (truthyStr a.dataUrl = some du → decode_dataurl_image du = Except.ok k →
      (env.runClip i).returncode = 0 →
      synthFromImage env a anim dur i =
        Except.ok (some (ClipSpec.fromImage anim none dur))) := by
  simp only [List.mem_cons, List.mem_singleton, not_or] at hne
  obtain ⟨h1, h2, h3, h4, h5, h6, h7, h8, h9⟩ := hne
  have hm : motionFilter anim dur = none := by
    simp only [motionFilter, if_neg h1, if_neg h2, if_neg h3, if_neg h4, if_neg h5,
      if_neg h6, if_neg h7, if_neg h8]
  refine ⟨hm, ?_, ?_⟩
  · rw [hm]
    exact Eq.symm rfl
  · intro hdu hdec hrc
    have hrun : run (env.runClip i) = Except.ok (env.runClip i).output := by
      unfold run
      rw [if_neg (by rw [hrc]; exact fun hc => hc rfl)]
    simp only [synthFromImage, hdu, hdec, hrun, hm]

/-- Closed instantiation of the C10 theorem at the unknown variant string
spiral: no motion filter, same as the none variant, and a successful static
clip. -/
theorem c10_witness :
    motionFilter "spiral" 7 = none ∧
    motionFilter "spiral" 7 = motionFilter "none" 7 ∧
    synthFromImage envOkAll assetImg "spiral" 7 0 =
      Except.ok (some (ClipSpec.fromImage "spiral" none 7)) :=
  ⟨(c10_unknown_variant "spiral" 7 envOkAll assetImg 0 "data:image/png;base64,AAAA" 3
      (by decide)).1,
   (c10_unknown_variant "spiral" 7 envOkAll assetImg 0 "data:image/png;base64,AAAA" 3
      (by decide)).2.1,
   (c10_unknown_variant "spiral" 7 envOkAll assetImg 0 "data:image/png;base64,AAAA" 3
      (by decide)).2.2 rfl rfl rfl⟩

end Worker
